import Mathlib

/-!
Shallow embedding of `src/pyssa/tau_adaptive.py` (the adaptive tau-leaping engine and
its HOR classifier) and verification of the frozen claims about it.

Modelling conventions:
* numpy float64 values are modelled as rationals, extended with signed infinities where
  a division by zero occurs on an embedded code path (`NumF`); numpy produces `±inf`
  there (with a runtime warning, not an exception).
* numpy arrays are Lean lists; the pre-allocated `max_iter`-sized trajectory buffers are
  lists of that length, written with `List.set` and read with `List.getD` (an
  uninitialised slot reads as `0`, exactly like `np.zeros`).
* a Python exception (`ValueError` from `np.nanmin` of an empty slice, `IndexError` from
  an out-of-bounds scalar index) makes the run result `none`.
* the random draws are threaded explicitly: a `Draws` record supplies, by call index,
  the value of `log(1/np.random.rand())` (the exponential sample of source line 244),
  each `np.random.poisson` result, and each uniform draw consumed by the roulette
  helper.  The claims under verification are invariant under the distribution of the
  draws, so the draw values are inputs of the embedding.
* `get_kstoc`, `roulette_selection` and `direct_naive` are imported by the source file
  but are not under `src/`; they are modelled from the spec (see their doc comments).
-/

namespace Pyssa

/-- Subset of numpy float64 values reached by the embedded code: finite values and the
two infinities.  `0/0` (numpy NaN) is mapped to `num 0`; it is unreachable on the
embedded code paths for integer-valued populations. -/
inductive NumF where
  | negInf
  | num (q : ℚ)
  | posInf
deriving DecidableEq, Repr

/-- Strict comparison of numpy float values. -/
def NumF.lt : NumF → NumF → Bool
  | .negInf, .negInf => false
  | .negInf, _ => true
  | .num _, .negInf => false
  | .num a, .num b => decide (a < b)
  | .num _, .posInf => true
  | .posInf, _ => false

/-- numpy float division: a positive value divided by zero is `+inf`, a negative one
`-inf` (numpy emits a warning and continues). -/
def NumF.div : NumF → NumF → NumF
  | .num a, .num b =>
      if b = 0 then (if 0 < a then .posInf else if a < 0 then .negInf else .num 0)
      else .num (a / b)
  | .num _, .posInf => .num 0
  | .num _, .negInf => .num 0
  | .posInf, .num b => if b < 0 then .negInf else .posInf
  | .negInf, .num b => if b < 0 then .posInf else .negInf
  | _, _ => .num 0

/-- numpy float addition restricted to the values arising here. -/
def NumF.add : NumF → NumF → NumF
  | .num a, .num b => .num (a + b)
  | .posInf, .negInf => .num 0
  | .negInf, .posInf => .num 0
  | .posInf, _ => .posInf
  | .negInf, _ => .negInf
  | .num _, .posInf => .posInf
  | .num _, .negInf => .negInf

/-- numpy float multiplication restricted to the values arising here. -/
def NumF.mul : NumF → NumF → NumF
  | .num a, .num b => .num (a * b)
  | .posInf, .posInf => .posInf
  | .negInf, .negInf => .posInf
  | .posInf, .negInf => .negInf
  | .negInf, .posInf => .negInf
  | .num a, .posInf => if 0 < a then .posInf else if a < 0 then .negInf else .num 0
  | .num a, .negInf => if 0 < a then .negInf else if a < 0 then .posInf else .num 0
  | .posInf, .num a => if 0 < a then .posInf else if a < 0 then .negInf else .num 0
  | .negInf, .num a => if 0 < a then .negInf else if a < 0 then .posInf else .num 0

/-- Python `max(a, b)`: returns `b` when `a < b`, else `a`. -/
def NumF.fmax (a b : NumF) : NumF := if NumF.lt a b then b else a

/-- Binary minimum, used to fold `np.nanmin` (no NaN arises on the embedded paths). -/
def NumF.fmin (a b : NumF) : NumF := if NumF.lt b a then b else a

/-- Extract a finite value; only used under a guard that proves finiteness. -/
def NumF.toQ : NumF → ℚ
  | .num q => q
  | _ => 0

/-- np.nanmin of a 1-d array: `none` models the ValueError raised on an empty slice. -/
def nanminN : List NumF → Option NumF
  | [] => none
  | a :: rest => some (rest.foldl NumF.fmin a)

/-- The `1e-30` propensity threshold of the source. -/
def qeps : ℚ := 1 / 10 ^ 30

/-- The `HIGH = 1e20` constant of source line 11. -/
def HIGH : ℚ := 10 ^ 20

/-- Argument record of `tau_adaptive` (source lines 72-84).  `react`/`prod` are the
(ns, nr) stoichiometry matrices as lists of rows (species) of columns (reactions). -/
structure TAArgs where
  react : List (List ℕ)
  prod : List (List ℕ)
  initState : List ℕ
  kdet : List ℚ
  nc : ℤ
  eps : ℚ
  maxT : ℚ
  maxIter : ℕ
  volume : ℚ
  seed : ℕ
  chemFlag : Bool
deriving DecidableEq, Repr

/-- Random draw streams, indexed by call count per draw kind (see module comment). -/
structure Draws where
  expv : ℕ → ℚ
  pois : ℕ → ℕ
  unif : ℕ → ℚ

/-- Loop state of the tau-leaping engine: iteration cursor, the two pre-allocated
trajectory buffers, and the draw cursors. -/
structure St where
  ite : ℕ
  t : List ℚ
  x : List (List ℚ)
  ei : ℕ
  pi : ℕ
  ui : ℕ
deriving DecidableEq, Repr

/-- Result of one pass of the `while` body: an explicit `return`, a fall-through to the
next iteration, or a Python exception. -/
inductive StepRes where
  | ret (r : List ℚ × List (List ℚ) × ℤ)
  | cont (st : St)
  | exn
deriving DecidableEq, Repr

/-- Entry `m[i][j]` of a stoichiometry matrix, 0 outside the stored rows/columns. -/
def getD2 (m : List (List ℕ)) (i j : ℕ) : ℕ := (m.getD i []).getD j 0

/-- Number of species (`react_stoic.shape[0]`, source line 131). -/
def nsOf (a : TAArgs) : ℕ := a.react.length

/-- Number of reactions (`react_stoic.shape[1]`, source line 132). -/
def nrOf (a : TAArgs) : ℕ := (a.react.headD []).length

/-- Net stoichiometry `v = prod_stoic - react_stoic` (source line 133). -/
def vEntry (a : TAArgs) (i j : ℕ) : ℤ := (getD2 a.prod i j : ℤ) - (getD2 a.react i j : ℤ)

/-- Row sum of a stoichiometry matrix (`np.sum(react_stoic, axis=1)`, source line 160). -/
def rowSum (m : List (List ℕ)) (i : ℕ) : ℕ := (m.getD i []).sum

/-- Column sum: the order of reaction `j` (`np.sum(react_stoic, axis=0)`, source line 44). -/
def orderOf (react : List (List ℕ)) (j : ℕ) : ℕ := (react.map (fun row => row.getD j 0)).sum

/-- Overwrite a buffer from position `start` with the elements of `seg`
(numpy slice assignment `t[ite : ite + len] = t_ssa`, source lines 236-237). -/
def writeFrom {α : Type} : List α → ℕ → List α → List α
  | l, _, [] => l
  | l, s, b :: rest => writeFrom (l.set s b) (s + 1) rest

/-- Modelled from the spec: `get_kstoc` (imported from `pyssa.utils`, absent from
`src/`).  Section 6 of the spec pins only the `chem_flag` scaling by Avogadro's number
and the volume for order ≥ 2 reactions; no claim exercises that scaling (all concrete
runs use `chem_flag = false`, `volume = 1`), so the derivation is modelled as the
identity, which preserves the one fact the claims use: zero deterministic rate
constants give zero stochastic rate constants. -/
def get_kstoc (_react : List (List ℕ)) (kdet : List ℚ) (_volume : ℚ) (_chemFlag : Bool) :
    List ℚ := kdet

/-- Stochastic rate constants of a run (source lines 140-143). -/
def kstocOf (a : TAArgs) : List ℚ := get_kstoc a.react a.kdet a.volume a.chemFlag

/-- Propensity vector (source lines 170-174 and spec §4.1): for each reaction the
stochastic rate constant times the product over species of the population raised to the
reactant coefficient. -/
def propensities (a : TAArgs) (xp : List ℚ) : List ℚ :=
  (List.range (nrOf a)).map (fun j =>
    (kstocOf a).getD j 0 *
      ((List.range (nsOf a)).map (fun i => xp.getD i 0 ^ getD2 a.react i j)).prod)

/-- Modelled from the spec: `roulette_selection` (imported from `pyssa.utils`, absent
from `src/`).  Per §4.3 it selects an index with probability proportional to the
weights; we realise this with one uniform draw `u ∈ [0, 1)` as the least index whose
cumulative weight exceeds `u * total`.  The state argument `xt` is accepted to match
the call signature (source line 260) and unused; with a non-positive total no index can
fire and `-1` is returned (no reaction index equals it). -/
def roulette_selection (weights : List ℚ) (_xt : List ℚ) (u : ℚ) : ℤ :=
  if weights.sum ≤ 0 then -1
  else
    (((List.range weights.length).find? (fun j => u * weights.sum < ((weights.take (j + 1)).sum))).getD
      (weights.length - 1) : ℕ)

/-- HOR classifier, source lines 14-68, embedded with its quirks:
* line 55 consults the columns of all order-2 reactions (global indices: correct);
* line 57 tests the tuple `np.where(orders == 3)`, which is always truthy, so the
  order-3 checks are unguarded;
* lines 60 and 65 index the species row by positions *within* the filtered
  `this_orders` array rather than by original column indices — embedded faithfully.
When the order-3 branch maxima are evaluated the position list is non-empty because
`HOR[ind] == 3` short-circuits `and`, so `np.max` raises nothing; the fold with
default 0 below is therefore exact where it is consulted. -/
def get_HOR (react : List (List ℕ)) : List ℤ :=
  (List.range react.length).map (fun ind =>
    let nr := (react.headD []).length
    let row := react.getD ind []
    let thisOrders : List ℕ :=
      ((List.range nr).filter (fun j => 0 < row.getD j 0)).map (fun j => orderOf react j)
    if thisOrders = [] then 0
    else
      let hor0 : ℤ := (thisOrders.foldr max 0 : ℕ)
      if hor0 = 1 then 1
      else
        let ord2cols := (List.range nr).filter (fun j => orderOf react j = 2)
        let hor1 : ℤ :=
          if ord2cols ≠ [] ∧ (ord2cols.map (fun j => row.getD j 0)).foldr max 0 = 2 ∧ hor0 = 2
          then -2 else hor0
        let pos3 := (List.range thisOrders.length).filter (fun p => thisOrders.getD p 0 = 3)
        let m3 : ℕ := (pos3.map (fun p => row.getD p 0)).foldr max 0
        if hor1 = 3 ∧ m3 = 2 then -32
        else if hor1 = 3 ∧ m3 = 3 then -3
        else hor1)

/-- Loop of the modelled Direct SSA Engine; `fuel` bounds the recursion and is passed as
`maxIter`, which the strictly increasing cursor can never outrun. -/
def dnLoop (a : TAArgs) (maxT : ℚ) (maxIter : ℕ) (d : Draws) :
    ℕ → ℕ → List ℚ → List (List ℚ) → ℕ → ℕ → List ℚ × List (List ℚ) × ℤ
  | 0, ite, t, x, _, _ => (t.take ite, x.take ite, 1)
  | fuel + 1, ite, t, x, ei, ui =>
    if ite < maxIter then
      let xp := x.getD (ite - 1) []
      let prop := propensities a xp
      if prop.sum < qeps then
        if xp.sum < qeps then (t.take ite, x.take ite, 3) else (t.take ite, x.take ite, -2)
      else
        let dt := d.expv ei / prop.sum
        let j := (roulette_selection prop xp (d.unif ui)).toNat
        let xNew := (List.range (nsOf a)).map (fun i => xp.getD i 0 + (vEntry a i j : ℚ))
        let t2 := t.set ite (t.getD (ite - 1) 0 + dt)
        let x2 := x.set ite xNew
        if xNew.any (fun q => decide (q < 0)) then (t2.take (ite + 1), x2.take (ite + 1), -3)
        else if t2.getD ite 0 > maxT then (t2.take (ite + 1), x2.take (ite + 1), 2)
        else dnLoop a maxT maxIter d fuel (ite + 1) t2 x2 (ei + 1) (ui + 1)
    else (t.take ite, x.take ite, 1)

/-- Modelled from the spec: `direct_naive`, the exact Direct SSA Engine (imported from
`pyssa.direct_naive`, absent from `src/`), per §4.3: trajectory buffers pre-allocated to
`max_iter` and returned truncated, the first recorded point being `(0, init_state)` on
the sub-run's own clock (the tau-leaping caller passes `max_t - t[ite-1]`, source
line 229, so the sub-run clock starts at zero); per iteration, propensities and their
total; a negligible total gives status 3 (extinct) or -2 (stuck); otherwise an
exponential waiting time and a roulette-selected reaction are applied, a negative
population is status -3, crossing `max_t` is status 2 and exhausting `max_iter` is
status 1.  A reaction order above 3 is rejected at setup with status -1.  `none` models
the IndexError a zero-length buffer would raise when the initial state is stored. -/
def direct_naive (a : TAArgs) (x0 : List ℚ) (maxT : ℚ) (maxIter : ℕ) (d : Draws) :
    Option (List ℚ × List (List ℚ) × ℤ) :=
  if maxIter = 0 then none
  else if (List.range (nrOf a)).any (fun j => 3 < orderOf a.react j) then
    some ([0], [x0], -1)
  else
    some (dnLoop a maxT maxIter d maxIter 1 (List.replicate maxIter 0)
      ((List.range maxIter).map (fun i => if i = 0 then x0 else List.replicate (nsOf a) 0))
      0 0)

/-- Minimum of a list of rationals, `none` on the empty list (the ValueError of
`np.nanmin`; no NaN occurs since the divisors are positive). -/
def minQ : List ℚ → Option ℚ
  | [] => none
  | q :: qs => some (qs.foldl min q)

/-- Minimum of a list of integers, `none` on the empty list. -/
def minZ : List ℤ → Option ℤ
  | [] => none
  | z :: zs => some (zs.foldl min z)

/-- Source line 181 for one reaction: `np.nanmin(x[ite-1, vis < 0] / abs(vis[vis < 0]))`,
the minimum over consumed species of population divided by consumption factor; `none`
models the ValueError `np.nanmin` raises when the reaction consumes no species. -/
def colL (a : TAArgs) (xp : List ℚ) (j : ℕ) : Option ℚ :=
  minQ (((List.range (nsOf a)).filter (fun i => vEntry a i j < 0)).map
    (fun i => xp.getD i 0 / |(vEntry a i j : ℚ)|))

/-- The `L` vector of source lines 179-181; the Python loop raises at the first reaction
with an empty consumed-species slice, observably the same as this all-or-nothing form. -/
def Lvals (a : TAArgs) (xp : List ℚ) : Option (List ℚ) :=
  if (List.range (nrOf a)).all (fun j => (colL a xp j).isSome) then
    some ((List.range (nrOf a)).map (fun j => (colL a xp j).getD 0))
  else none

/-- Criticality flags, source line 185: `crit = (L < nc) * (prop > 0)`. -/
def critFlags (a : TAArgs) (xp prop : List ℚ) : Option (List Bool) :=
  match Lvals a xp with
  | none => none
  | some L =>
    some ((List.range (nrOf a)).map (fun j =>
      decide (L.getD j 0 < (a.nc : ℚ)) && decide (0 < prop.getD j 0)))

/-- Python `x[ite - 1, species_index] is not 1` (source lines 200 and 214): `is not`
compares object identity, and a numpy scalar read out of an array is never the same
object as the int literal `1`, so the test is true for every value. -/
def numpyIsNot1 (_xi : ℚ) : Bool := true

/-- Error-control factor `g` of source lines 197-217.  The `-3` branch uses
`not in [1, 2]`, which does compare by value; the `-2` and `-32` branches use the
identity test above, so their `x == 1` guards never fire and the division by zero goes
through (numpy: `+inf`). -/
def gFactor (hor : ℤ) (xi : ℚ) : NumF :=
  if 0 < hor then .num (hor : ℚ)
  else if hor = -2 then
    (if numpyIsNot1 xi then NumF.add (.num 1) (NumF.div (.num 2) (.num (xi - 1)))
     else .num 2)
  else if hor = -3 then
    (if ¬(xi = 1 ∨ xi = 2) then .num (3 + 1 / (xi - 1) + 2 / (xi - 2))
     else .num 3)
  else if hor = -32 then
    (if numpyIsNot1 xi then NumF.mul (.num (3 / 2)) (NumF.add (.num 2) (NumF.div (.num 1) (.num (xi - 1))))
     else .num 3)
  else .num 1

/-- Reactant species indices, source line 160. -/
def reactSpecies (a : TAArgs) : List ℕ :=
  (List.range (nsOf a)).filter (fun i => 0 < rowSum a.react i)

/-- Count of non-critical reactions (`np.sum(not_crit)`). -/
def countNC (notCrit : List Bool) : ℕ := (notCrit.filter (fun b => b)).length

/-- First moment `mu` of source line 195, over non-critical reactions only. -/
def mupOf (a : TAArgs) (prop : List ℚ) (notCrit : List Bool) (i : ℕ) : ℚ :=
  (((List.range (nrOf a)).filter (fun j => notCrit.getD j false)).map
    (fun j => (vEntry a i j : ℚ) * prop.getD j 0)).sum

/-- Second moment `sig` of source line 196, over non-critical reactions only. -/
def sigpOf (a : TAArgs) (prop : List ℚ) (notCrit : List Bool) (i : ℕ) : ℚ :=
  (((List.range (nrOf a)).filter (fun j => notCrit.getD j false)).map
    (fun j => (vEntry a i j : ℚ) ^ 2 * prop.getD j 0)).sum

/-- Per-species bound of source line 218: `max(epsilon * x_i / g, 1)` with the fixed
internal `epsilon = 0.03` (the `eps` argument of the function is unused by the source). -/
def tauNumOf (a : TAArgs) (xp : List ℚ) (i : ℕ) : NumF :=
  NumF.fmax
    (NumF.div (.num (3 / 100 * xp.getD i 0)) (gFactor ((get_HOR a.react).getD i 0) (xp.getD i 0)))
    (.num 1)

/-- Candidate leap size, source lines 188-221: `HIGH` when no reaction is non-critical,
else the nanmin over all reactant species of `tau_num/|mu|` and `tau_num^2/|sig|` (the
source concatenates the two arrays; the interleaving below has the same minimum).
`none` models the ValueError of `np.nanmin` on an empty concatenation. -/
def taupOf (a : TAArgs) (xp prop : List ℚ) (notCrit : List Bool) : Option NumF :=
  if countNC notCrit = 0 then some (.num HIGH)
  else
    nanminN (((reactSpecies a).map (fun i =>
      [NumF.div (tauNumOf a xp i) (.num |mupOf a prop notCrit i|),
       NumF.div (NumF.mul (tauNumOf a xp i) (tauNumOf a xp i)) (.num |sigpOf a prop notCrit i|)])).flatten)

/-- Index of the draw consumed by the `np.random.poisson` call for reaction `j` (the
source loops over reactions in order, drawing once per non-critical reaction). -/
def poisIndex (notCrit : List Bool) (base j : ℕ) : ℕ := base + countNC (notCrit.take j)

/-- Firing counts of the pure-leap branch, source lines 247-253: Poisson counts for
non-critical reactions, zero for critical ones. -/
def Kleap (d : Draws) (notCrit : List Bool) (basePi j : ℕ) : ℚ :=
  if notCrit.getD j false then (d.pois (poisIndex notCrit basePi j) : ℚ) else 0

/-- Firing counts of the critical-fire branch, source lines 254-267: Poisson counts for
non-critical reactions, one firing for the roulette-selected critical reaction. -/
def Kcrit (d : Draws) (notCrit : List Bool) (basePi : ℕ) (jcrit : ℤ) (j : ℕ) : ℚ :=
  if notCrit.getD j false then (d.pois (poisIndex notCrit basePi j) : ℚ)
  else if (j : ℤ) = jcrit then 1 else 0

/-- The critical-only propensity vector `temp` of source lines 258-259. -/
def critMask (prop : List ℚ) (notCrit : List Bool) : List ℚ :=
  (List.range prop.length).map (fun j => if notCrit.getD j false then 0 else prop.getD j 0)

/-- State/time update of one reaction vector `K` (source line 273). -/
def applyK (a : TAArgs) (xp : List ℚ) (K : ℕ → ℚ) : List ℚ :=
  (List.range (nsOf a)).map (fun i =>
    xp.getD i 0 + ((List.range (nrOf a)).map (fun j => (vEntry a i j : ℚ) * K j)).sum)

/-- Commit of a leap, source lines 269-280: write `x[ite]` and `t[ite]`, increment
`ite`, then test `t[ite] > max_t` — the read is one slot past the slot just written;
when the incremented cursor equals `max_iter` that read is out of bounds (IndexError,
modelled by `exn`), and otherwise it reads a still-zero slot of the pre-allocated
buffer unless an earlier burst wrote it. -/
def commitStep (a : TAArgs) (st : St) (tau : ℚ) (xNew : List ℚ) (ei pi ui : ℕ) : StepRes :=
  if st.ite + 1 ≥ a.maxIter then .exn
  else if (st.t.set st.ite (st.t.getD (st.ite - 1) 0 + tau)).getD (st.ite + 1) 0 > a.maxT then
    .ret ((st.t.set st.ite (st.t.getD (st.ite - 1) 0 + tau)).take (st.ite + 1),
      (st.x.set st.ite xNew).take (st.ite + 1), 2)
  else
    .cont ⟨st.ite + 1, st.t.set st.ite (st.t.getD (st.ite - 1) 0 + tau),
      st.x.set st.ite xNew, ei, pi, ui⟩

/-- Steps 4-6 of the loop body, source lines 243-280: draw the exact-step candidate
`taupp`, commit the smaller of the two intervals with the corresponding firing counts. -/
def leapStep (a : TAArgs) (d : Draws) (st : St) (xp prop : List ℚ) (propSum : ℚ)
    (notCrit : List Bool) (taup : NumF) : StepRes :=
  if NumF.lt taup (.num (1 / propSum * d.expv st.ei)) then
    commitStep a st (NumF.toQ taup) (applyK a xp (Kleap d notCrit st.pi))
      (st.ei + 1) (st.pi + countNC notCrit) st.ui
  else
    commitStep a st (1 / propSum * d.expv st.ei)
      (applyK a xp (Kcrit d notCrit st.pi
        (roulette_selection (critMask prop notCrit) xp (d.unif st.ui))))
      (st.ei + 1) (st.pi + countNC notCrit) (st.ui + 1)

/-- Step 3 of the loop body, source lines 222-241: delegate a burst of exact SSA steps.
The sub-run's output is spliced into the parent buffers at the cursor *without* any
time offset, and on status 3 or 2 the *full* pre-allocated buffers are returned
(source line 240), not the truncated prefixes.  `direct_naive` re-seeds the global
generator with the caller's seed, so every burst consumes the same seed-determined
stream (`dnD`) from its start. -/
def burstStep (a : TAArgs) (dnD : Draws) (st : St) (xp : List ℚ) : StepRes :=
  match direct_naive a xp (a.maxT - st.t.getD (st.ite - 1) 0) (min 100 (a.maxIter - st.ite)) dnD with
  | none => .exn
  | some (tS, xS, status) =>
    if status = 3 ∨ status = 2 then
      .ret (writeFrom st.t st.ite tS, writeFrom st.x st.ite xS, status)
    else
      .cont ⟨st.ite + tS.length, writeFrom st.t st.ite tS, writeFrom st.x st.ite xS,
        st.ei, st.pi, st.ui⟩

/-- One pass of the `while` body of source lines 166-280. -/
def tauStep (a : TAArgs) (d dnD : Draws) (st : St) : StepRes :=
  if (propensities a (st.x.getD (st.ite - 1) [])).sum < qeps then
    .ret (st.t.take st.ite, st.x.take st.ite, 3)
  else
    match critFlags a (st.x.getD (st.ite - 1) []) (propensities a (st.x.getD (st.ite - 1) [])) with
    | none => .exn
    | some crit =>
      match taupOf a (st.x.getD (st.ite - 1) [])
          (propensities a (st.x.getD (st.ite - 1) [])) (crit.map (fun b => !b)) with
      | none => .exn
      | some taup =>
        if NumF.lt taup (.num (10 / (propensities a (st.x.getD (st.ite - 1) [])).sum)) then
          burstStep a dnD st (st.x.getD (st.ite - 1) [])
        else
          leapStep a d st (st.x.getD (st.ite - 1) [])
            (propensities a (st.x.getD (st.ite - 1) []))
            ((propensities a (st.x.getD (st.ite - 1) [])).sum)
            (crit.map (fun b => !b)) taup

/-- The `while ite < max_iter` loop (source lines 166-282); the cursor strictly
increases every pass, so fuel `max_iter + 1` never runs out on a reachable state. -/
def tauLoop (a : TAArgs) (d dnD : Draws) : ℕ → St → Option (List ℚ × List (List ℚ) × ℤ)
  | 0, _ => none
  | fuel + 1, st =>
    if st.ite < a.maxIter then
      match tauStep a d dnD st with
      | .ret r => some r
      | .exn => none
      | .cont st2 => tauLoop a d dnD fuel st2
    else some (st.t.take st.ite, st.x.take st.ite, 1)

/-- The tau-leaping engine, source lines 72-282, as a function of the argument record
and the two draw streams (the engine's own and the one each delegated burst re-derives
from the seed).  The pre-loop check of lines 150-153 compares the *rate-constant* sum
(the propensity vector before any state is folded in) and falls through to the loop
when the population total is also negligible.  `none` models a Python exception. -/
def tau_adaptive (a : TAArgs) (d dnD : Draws) : Option (List ℚ × List (List ℚ) × ℤ) :=
  if a.maxIter = 0 then none
  else
    if (kstocOf a).sum < qeps ∧
        ((a.initState.map (fun n => (n : ℚ))).sum > qeps) then
      some ([(0 : ℚ)], [a.initState.map (fun n => (n : ℚ))], -2)
    else
      tauLoop a d dnD (a.maxIter + 1)
        ⟨1, List.replicate a.maxIter 0,
          (List.range a.maxIter).map (fun i =>
            if i = 0 then a.initState.map (fun n => (n : ℚ)) else List.replicate (nsOf a) 0),
          0, 0, 0⟩

/-- Modelled from the spec: the numpy global random generator.  Sections 4.3 and 8 pin
only that the seed fully determines the draw sequence; the particular values are
irrelevant to every claim, so an arbitrary definite seed-dependent sequence is used. -/
def npStream (seed : ℕ) : Draws where
  expv := fun n => 1 + (((seed + n) % 5 : ℕ) : ℚ)
  pois := fun n => (seed + n) % 3
  unif := fun n => (((seed + 2 * n) % 4 : ℕ) : ℚ) / 7

/-- The public entry point: `np.random.seed(seed)` (source line 138) makes every draw a
function of the seed, and each delegated `direct_naive` burst re-seeds with the same
seed (source line 232). -/
def tau_adaptive_seeded (a : TAArgs) : Option (List ℚ × List (List ℚ) × ℤ) :=
  tau_adaptive a (npStream a.seed) (npStream a.seed)

/-- Spec-side definition for claim C4, following the claim's words rather than the
source: `L_j` as the minimum over species consumed by reaction `j` of
`floor(x[i] / |net_stoic[i, j]|)`, `none` when the reaction consumes no species. -/
def Lfloor_claim (a : TAArgs) (xp : List ℚ) (j : ℕ) : Option ℤ :=
  minZ ((((List.range (nsOf a)).filter (fun i => vEntry a i j < 0)).map
    (fun i => xp.getD i 0 / |(vEntry a i j : ℚ)|)).map (fun q => ⌊q⌋))

/-- Decay network `A → ∅` from population 1000 with `nc = 10`, `max_t = 1`,
`max_iter = 4`: the first leap is committed with a Poisson draw of 2000 firings,
driving the population to `-1000`. -/
def c1args : TAArgs := ⟨[[1]], [[0]], [1000], [1], 10, 3 / 100, 1, 4, 1, 0, false⟩

/-- Draws for the C1 run: exponential sample 100 (so the leap candidate wins against
`taupp = 1/10`) and Poisson count 2000. -/
def c1d : Draws := ⟨fun _ => 100, fun _ => 2000, fun _ => 0⟩

/-- Decay network `A → ∅` from population 1000 with `max_t = 1/100`: the very first
committed leap (tau = 3/100) crosses the time budget. -/
def c2args : TAArgs := ⟨[[1]], [[0]], [1000], [1], 10, 3 / 100, 1 / 100, 4, 1, 0, false⟩

/-- Draws for the C2 run: exponential sample 100, Poisson count 1 per leap. -/
def c2d : Draws := ⟨fun _ => 100, fun _ => 1, fun _ => 0⟩

/-- Bimolecular network `A + B → C` with `x0 = (1, 0, 0)`: every propensity is zero at
the initial state while reactive species remain. -/
def c3argsA : TAArgs := ⟨[[1], [1], [0]], [[0], [0], [1]], [1, 0, 0], [1], 10, 3 / 100, 10, 3, 1, 0, false⟩

/-- Decay network `A → ∅` with the rate constant zero and population 5. -/
def c3argsB : TAArgs := ⟨[[1]], [[0]], [5], [0], 10, 3 / 100, 10, 3, 1, 0, false⟩

/-- Draws whose values are never reached by the runs that use them. -/
def zeroD : Draws := ⟨fun _ => 1, fun _ => 0, fun _ => 0⟩

/-- Pure-production network `∅ → A`: its single reaction consumes no species, so its
net-stoichiometry column has no negative entry. -/
def c4args : TAArgs := ⟨[[0]], [[1]], [5], [1], 10, 3 / 100, 10, 3, 1, 0, false⟩

/-- Tiny decay network used only to instantiate the universally quantified part of the
C4 theorem: `A → ∅` from population 5. -/
def c4wargs : TAArgs := ⟨[[1]], [[0]], [5], [1], 10, 3 / 100, 10, 3, 1, 0, false⟩

/-- Decay network `A → ∅` from population 5 with `nc = 10`: `L = 5 < 10`, so the single
reaction is critical and there is no non-critical reaction. -/
def c6args : TAArgs := ⟨[[1]], [[0]], [5], [1], 10, 3 / 100, 100, 4, 1, 0, false⟩

/-- Draws for the C6 run: exponential sample 5 (`taupp = 1`), roulette draw 0. -/
def c6d : Draws := ⟨fun _ => 5, fun _ => 0, fun _ => 0⟩

/-- Decay network `A → ∅` from population 20 with `nc = 0` (nothing is critical),
`max_t = 1`, `max_iter = 5`: the first iteration delegates an SSA burst whose first
step already crosses the time budget. -/
def c8args : TAArgs := ⟨[[1]], [[0]], [20], [1], 0, 3 / 100, 1, 5, 1, 0, false⟩

/-- Burst draws for the C8 run: exponential sample 40, so the burst's first waiting
time is 2 and the sub-run ends with status 2. -/
def c8dn : Draws := ⟨fun _ => 40, fun _ => 0, fun _ => 0⟩

/-- Decay network `A → ∅` from population 1000 with `nc = 10`, `max_t = 100`,
`max_iter = 6`: one committed leap (Poisson count 700, reaching time 3/100), then the
depleted propensity makes the next candidate leap too small and an SSA burst is
delegated and spliced in. -/
def c9args : TAArgs := ⟨[[1]], [[0]], [1000], [1], 10, 3 / 100, 100, 6, 1, 0, false⟩

/-- Engine draws for the C9 run: exponential sample 100, Poisson count 700. -/
def c9d : Draws := ⟨fun _ => 100, fun _ => 700, fun _ => 0⟩

/-- Burst draws for the C9 run, chosen so every SSA waiting time is exactly 1/100. -/
def c9dn : Draws := ⟨fun n => ((300 - n : ℕ) : ℚ) / 100, fun _ => 0, fun _ => 0⟩

/-- Arbitrary argument record used to instantiate the determinism theorem. -/
def c10args : TAArgs := ⟨[[1, 0], [0, 1]], [[0, 1], [0, 0]], [10, 0], [1, 1], 10, 3 / 100, 1, 8, 1, 42, false⟩

/-- A leap commit can only return with status 2. -/
theorem commitStep_status (a : TAArgs) (st : St) (tau : ℚ) (xNew : List ℚ)
    (ei pi ui : ℕ) (r : List ℚ × List (List ℚ) × ℤ)
    (h : commitStep a st tau xNew ei pi ui = .ret r) : r.2.2 = 2 := by
  unfold commitStep at h
  split at h
  · cases h
  · split at h
    · cases h; rfl
    · cases h

/-- Both leap branches commit, so a leap iteration can only return with status 2. -/
theorem leapStep_status (a : TAArgs) (d : Draws) (st : St) (xp prop : List ℚ)
    (propSum : ℚ) (notCrit : List Bool) (taup : NumF) (r : List ℚ × List (List ℚ) × ℤ)
    (h : leapStep a d st xp prop propSum notCrit taup = .ret r) : r.2.2 = 2 := by
  unfold leapStep at h
  split at h
  · exact commitStep_status _ _ _ _ _ _ _ _ h
  · exact commitStep_status _ _ _ _ _ _ _ _ h

/-- The burst branch only propagates a sub-run status that its own guard has already
checked to be 3 or 2 (source line 239). -/
theorem burstStep_status (a : TAArgs) (dnD : Draws) (st : St) (xp : List ℚ)
    (r : List ℚ × List (List ℚ) × ℤ)
    (h : burstStep a dnD st xp = .ret r) : r.2.2 = 3 ∨ r.2.2 = 2 := by
  unfold burstStep at h
  split at h
  · cases h
  · split at h
    · next hcond => cases h; simpa using hcond
    · cases h

/-- Any explicit return out of the loop body carries status 3 or 2. -/
theorem tauStep_status (a : TAArgs) (d dnD : Draws) (st : St)
    (r : List ℚ × List (List ℚ) × ℤ) (h : tauStep a d dnD st = .ret r) :
    r.2.2 = 3 ∨ r.2.2 = 2 := by
  unfold tauStep at h
  split at h
  · cases h; exact Or.inl rfl
  · split at h
    · cases h
    · split at h
      · cases h
      · split at h
        · exact burstStep_status _ _ _ _ _ h
        · exact Or.inr (leapStep_status _ _ _ _ _ _ _ _ _ h)

/-- Every value the loop can produce has status 3, 2 or 1. -/
theorem tauLoop_status (a : TAArgs) (d dnD : Draws) :
    ∀ (fuel : ℕ) (st : St) (r : List ℚ × List (List ℚ) × ℤ),
      tauLoop a d dnD fuel st = some r → r.2.2 = 3 ∨ r.2.2 = 2 ∨ r.2.2 = 1 := by
  intro fuel
  induction fuel with
  | zero => intro st r h; cases h
  | succ n ih =>
    intro st r h
    simp only [tauLoop] at h
    split at h
    · split at h
      · next heq =>
        rcases h with ⟨⟩
        rcases tauStep_status _ _ _ _ _ heq with h1 | h1
        · exact Or.inl h1
        · exact Or.inr (Or.inl h1)
      · cases h
      · exact ih _ _ h
    · cases h; exact Or.inr (Or.inr rfl)

/-- The engine as a whole can only produce statuses -2, 3, 2 and 1. -/
theorem tau_adaptive_status (a : TAArgs) (d dnD : Draws) (r : List ℚ × List (List ℚ) × ℤ)
    (h : tau_adaptive a d dnD = some r) :
    r.2.2 = -2 ∨ r.2.2 = 3 ∨ r.2.2 = 2 ∨ r.2.2 = 1 := by
  unfold tau_adaptive at h
  split at h
  · cases h
  · split at h
    · cases h; exact Or.inl rfl
    · exact Or.inr (tauLoop_status _ _ _ _ _ _ h)

/-- Folding a minimum commutes with the floor function. -/
theorem floor_foldl_min (qs : List ℚ) :
    ∀ q0 : ℚ, ⌊qs.foldl min q0⌋ = (qs.map (fun q => ⌊q⌋)).foldl min ⌊q0⌋ := by
  induction qs with
  | nil => intro q0; rfl
  | cons a as ih =>
    intro q0
    simp only [List.foldl_cons, List.map_cons]
    have hmin : (⌊min q0 a⌋ : ℤ) = min ⌊q0⌋ ⌊a⌋ := by
      rcases le_total q0 a with hle | hle
      · rw [min_eq_left hle, min_eq_left (Int.floor_le_floor hle)]
      · rw [min_eq_right hle, min_eq_right (Int.floor_le_floor hle)]
    rw [ih (min q0 a), hmin]

/-- The source's real-valued per-reaction minimum and the claim's floor-based one fall
on the same side of any integer threshold. -/
theorem colL_floor (a : TAArgs) (xp : List ℚ) (j : ℕ) (q : ℚ) (c : ℤ)
    (h : colL a xp j = some q) :
    (q < (c : ℚ) ↔ ∃ z, Lfloor_claim a xp j = some z ∧ z < c) := by
  unfold colL at h
  unfold Lfloor_claim
  generalize (((List.range (nsOf a)).filter (fun i => vEntry a i j < 0)).map
      (fun i => xp.getD i 0 / |(vEntry a i j : ℚ)|)) = l at h ⊢
  rcases l with _ | ⟨q0, qs⟩
  · simp [minQ] at h
  · simp only [minQ, Option.some.injEq] at h
    subst h
    simp only [List.map_cons, minZ, Option.some.injEq, exists_eq_left']
    rw [← floor_foldl_min]
    exact Int.floor_lt.symm

/-- Element access of a map over a range. -/
theorem getD_map_range {α : Type} (f : ℕ → α) (dflt : α) {j n : ℕ} (hj : j < n) :
    ((List.range n).map f).getD j dflt = f j := by
  rw [List.getD_eq_getElem?_getD, List.getElem?_map, List.getElem?_range hj]
  rfl

/-- The criticality flag of source line 185 agrees with the claim's description:
reaction `j` is critical exactly when the floor-based `L_j` is below `nc` and the
propensity is positive. -/
theorem critFlags_iff (a : TAArgs) (xp prop : List ℚ) (crit : List Bool) (j : ℕ)
    (h : critFlags a xp prop = some crit) (hj : j < nrOf a) :
    (crit.getD j false = true ↔
      ((∃ z, Lfloor_claim a xp j = some z ∧ z < a.nc) ∧ 0 < prop.getD j 0)) := by
  unfold critFlags at h
  split at h
  · cases h
  · next L heqL =>
    rcases h with ⟨⟩
    rw [getD_map_range _ _ hj]
    unfold Lvals at heqL
    split at heqL
    · next hall =>
      rcases heqL with ⟨⟩
      rw [getD_map_range _ _ hj]
      simp only [List.all_eq_true] at hall
      have hs := hall j (List.mem_range.mpr hj)
      rcases Option.isSome_iff_exists.mp (by simpa using hs) with ⟨q, hq⟩
      rw [hq]
      simp only [Option.getD_some, Bool.and_eq_true, decide_eq_true_eq]
      exact and_congr_left' (colL_floor a xp j q a.nc hq)
    · cases heqL

/-- C1: refuted as stated — `tau_adaptive` has no negative-population check at all (the
comment at source line 269 announces one, none follows).  On the concrete decay run the
committed leap drives the population to -1000, the engine records that state, keeps
simulating, and terminates with status 3 — the negative state makes the total
propensity negative, which the extinction test at source line 176 mistakes for
extinction.  Moreover no run of the engine can return status -3 at all. -/
theorem c1_negative_population_not_detected :
    tau_adaptive c1args c1d c1d = some ([0, 3 / 100], [[1000], [-1000]], 3) ∧
    ∀ (a : TAArgs) (d dnD : Draws) (r : List ℚ × List (List ℚ) × ℤ),
      tau_adaptive a d dnD = some r → r.2.2 ≠ -3 := by
  constructor
  · decide!
  · intro a d dnD r h
    rcases tau_adaptive_status a d dnD r h with h1 | h1 | h1 | h1 <;> omega

/-- Witness for the hypothesis of `c1_negative_population_not_detected`: its universal
part applied to the concrete run. -/
theorem c1_negative_population_not_detected_witness : (3 : ℤ) ≠ -3 :=
  c1_negative_population_not_detected.2 c1args c1d c1d
    ([0, 3 / 100], [[1000], [-1000]], 3) (by decide!)

/-- C2: refuted as stated — the committed first leap reaches time 3/100, past
`max_t = 1/100`, yet the iteration falls through to the next pass (`cont`, not a
status-2 return), because source line 278 tests `t[ite]` after `ite` was incremented:
it reads the still-zero slot one past the one just written.  The whole run never
produces status 2; it ends in the IndexError that same read raises once the cursor
reaches `max_iter` (result `none`). -/
theorem c2_leap_past_max_t_not_terminated :
    tauStep c2args c2d c2d ⟨1, [0, 0, 0, 0], [[1000], [0], [0], [0]], 0, 0, 0⟩ =
      .cont ⟨2, [0, 3 / 100, 0, 0], [[1000], [999], [0], [0]], 1, 1, 0⟩ ∧
    (3 / 100 : ℚ) > c2args.maxT ∧
    tau_adaptive c2args c2d c2d = none := by decide!

/-- C3: the all-zero-rate-constant half of the claim holds (status -2), but the other
half is refuted: at a state where every propensity vanishes while reactive species
remain (`A + B → C` from `(1, 0, 0)`), the in-loop test at source lines 176-178
returns status 3 (extinction) unconditionally — the population check exists only in
the pre-loop test of lines 150-153, which sees the rate constants, not the
state-dependent propensities. -/
theorem c3_stuck_state_reported_as_extinct :
    tau_adaptive c3argsA zeroD zeroD = some ([0], [[1, 0, 0]], 3) ∧
    ((1 : ℚ) + 0 + 0 > qeps) ∧
    tau_adaptive c3argsB zeroD zeroD = some ([0], [[5]], -2) := by decide!

/-- C4: refuted on the error-freedom conjunct — a reaction that consumes no species
(`∅ → A`) makes `np.nanmin` at source line 181 raise a ValueError on an empty slice,
so the run fails instead of classifying the reaction non-critical.  The
criticality-partition formula itself is confirmed wherever `L` is defined: the flag of
source line 185 equals the claim's floor-based criterion (the code skips the `floor`,
but `nc` is an integer, so the comparison is unchanged). -/
theorem c4_criticality_partition :
    tau_adaptive c4args zeroD zeroD = none ∧
    ∀ (a : TAArgs) (xp prop : List ℚ) (crit : List Bool) (j : ℕ),
      critFlags a xp prop = some crit → j < nrOf a →
      (crit.getD j false = true ↔
        ((∃ z, Lfloor_claim a xp j = some z ∧ z < a.nc) ∧ 0 < prop.getD j 0)) :=
  ⟨by decide!, fun a xp prop crit j h hj => critFlags_iff a xp prop crit j h hj⟩

/-- Witness for `c4_criticality_partition`: its universal part applied at the decay
network `A → ∅` with population 5. -/
theorem c4_criticality_partition_witness :
    ([true].getD 0 false = true ↔
      ((∃ z, Lfloor_claim c4wargs [5] 0 = some z ∧ z < c4wargs.nc) ∧
        0 < ([5] : List ℚ).getD 0 0)) :=
  c4_criticality_partition.2 c4wargs [5] [5] [true] 0 (by decide!) (by decide!)

/-- C5: refuted on the degenerate guards — the `x == 1` tests of the `-2` and `-32`
branches (source lines 200 and 214) are `is not` identity comparisons, true for every
numpy scalar, so at `x = 1` the code divides by zero and produces `g = +inf` instead of
the claimed 2 (resp. 3).  The `-3` branch uses `not in [1, 2]` (value comparison) and
behaves as claimed, and away from `x = 1` the `-2` formula is the claimed one.
Downstream the bug is masked: `max(0.03 * 1 / g, 1)` is 1 for `g = +inf` just as for
the claimed finite value. -/
theorem c5_g_factor_guards :
    gFactor (-2) 1 = .posInf ∧ gFactor (-2) 1 ≠ .num 2 ∧
    gFactor (-32) 1 = .posInf ∧ gFactor (-32) 1 ≠ .num 3 ∧
    gFactor (-3) 1 = .num 3 ∧ gFactor (-3) 2 = .num 3 ∧
    NumF.fmax (NumF.div (.num (3 / 100 * 1)) (gFactor (-2) 1)) (.num 1) = .num 1 ∧
    (∀ xi : ℚ, xi ≠ 1 → gFactor (-2) xi = .num (1 + 2 / (xi - 1))) := by
  refine ⟨by decide!, by decide!, by decide!, by decide!, by decide!, by decide!,
    by decide!, ?_⟩
  intro xi hxi
  have h1 : xi - 1 ≠ 0 := sub_ne_zero.mpr hxi
  norm_num [gFactor, numpyIsNot1, NumF.div, NumF.add, h1]

/-- Witness for `c5_g_factor_guards`: its universal part applied at `x = 3`. -/
theorem c5_g_factor_guards_witness : gFactor (-2) 3 = .num (1 + 2 / (3 - 1)) :=
  c5_g_factor_guards.2.2.2.2.2.2.2 3 (by norm_num)

/-- C6 counterexample: a state where the single reaction is critical (there is no
non-critical reaction), yet the iteration does not delegate to SSA: `taup` is the
finite `HIGH = 1e20`, the fallback test `taup < 10/total` is false (total = 5), and the
step commits a leap in which the roulette-selected critical reaction fires once — slot
1 receives the leap result `x = [4]`, `t = 1`; a delegated burst would instead have
spliced the sub-run's initial point `[5]` there. -/
theorem c6_all_critical_counterexample :
    critFlags c6args [5] (propensities c6args [5]) = some [true] ∧
    taupOf c6args [5] (propensities c6args [5]) [false] = some (.num HIGH) ∧
    NumF.lt (.num HIGH) (.num (10 / (propensities c6args [5]).sum)) = false ∧
    tauStep c6args c6d c6d ⟨1, [0, 0, 0, 0], [[5], [0], [0], [0]], 0, 0, 0⟩ =
      .cont ⟨2, [0, 1, 0, 0], [[5], [4], [0], [0]], 1, 0, 1⟩ := by decide!

/-- C6 amended: when every reaction is critical the candidate leap size is the finite
constant `HIGH = 1e20`, not `+inf`; this skips the small-step SSA fallback whenever the
total propensity is at least `1e-19`, and the engine then commits a `taupp` step firing
exactly one critical reaction instead of delegating a burst. -/
theorem c6_all_critical_amended :
    ∀ (a : TAArgs) (xp prop : List ℚ) (notCrit : List Bool) (propSum : ℚ),
      (∀ b ∈ notCrit, b = false) → 1 / 10 ^ 19 ≤ propSum →
      taupOf a xp prop notCrit = some (.num HIGH) ∧
      NumF.lt (.num HIGH) (.num (10 / propSum)) = false := by
  intro a xp prop notCrit propSum hall hps
  constructor
  · have h0 : countNC notCrit = 0 := by
      unfold countNC
      rw [List.length_eq_zero, List.filter_eq_nil_iff]
      intro b hb
      simp [hall b hb]
    unfold taupOf
    simp [h0]
  · have hpos : (0 : ℚ) < propSum := lt_of_lt_of_le (by norm_num) hps
    have hle : 10 / propSum ≤ HIGH := by
      rw [div_le_iff₀ hpos]
      have h2 := mul_le_mul_of_nonneg_left hps (show (0 : ℚ) ≤ HIGH by unfold HIGH; positivity)
      calc (10 : ℚ) = HIGH * (1 / 10 ^ 19) := by unfold HIGH; norm_num
        _ ≤ HIGH * propSum := h2
    unfold NumF.lt
    simp only [decide_eq_false_iff_not, not_lt]
    exact hle

/-- Witness for `c6_all_critical_amended`: applied at the all-critical concrete state
of the counterexample (total propensity 5). -/
theorem c6_all_critical_amended_witness :
    taupOf c6args [5] (propensities c6args [5]) [false] = some (.num HIGH) ∧
    NumF.lt (.num HIGH) (.num (10 / 5)) = false :=
  c6_all_critical_amended c6args [5] (propensities c6args [5]) [false] 5
    (by decide!) (by norm_num)

/-- C7: refuted for the degenerate order-3 codes — for `react_stoic =
[[1,0],[0,2],[0,1]]` (reaction 0 consumes A; reaction 1 is the order-3 `2B + C → …`),
species B has coefficient 2 in an order-3 reaction, so the claim requires
`HOR[B] = -32`, but `get_HOR` returns 3: source line 60 indexes the species row by
positions within the filtered `this_orders` array (position 0) instead of the original
column indices (column 1), reading A's zero coefficient.  When a species' reactant
columns happen to be an initial segment the indexing coincides and the claimed codes
come out, as the single-reaction probes and the base cases show. -/
theorem c7_get_HOR_misindexed :
    get_HOR [[1, 0], [0, 2], [0, 1]] = [1, 3, 3] ∧
    (get_HOR [[1, 0], [0, 2], [0, 1]]).getD 1 0 ≠ -32 ∧
    get_HOR [[2], [1]] = [-32, 3] ∧
    get_HOR [[2]] = [-2] ∧
    get_HOR [[3]] = [-3] ∧
    get_HOR [[0], [1]] = [0, 1] := by decide!

/-- C8: refuted — the delegated-burst return path of source line 240 returns the full
pre-allocated buffers untruncated.  On the concrete run the burst ends with status 2
after the trajectory has filled only slots 0-2; the returned arrays nevertheless have
the full length `max_iter = 5`, with zero-filled unused slots 3 and 4. -/
theorem c8_burst_return_untruncated :
    tau_adaptive c8args zeroD c8dn =
      some ([0, 0, 2, 0, 0], [[20], [20], [19], [0], [0]], 2) ∧
    ([0, 0, 2, 0, 0] : List ℚ).length = c8args.maxIter ∧
    c8args.maxIter ≠ 3 := by decide!

/-- C9: refuted for the time component — the burst splice of source lines 236-237 does
not offset the sub-run's clock by the parent's current time, so after the first leap
ends at time 3/100 the appended burst times restart at 0: the recorded times decrease
across the splice boundary (slot 1 holds 3/100, slot 2 holds 0).  The state component
behaves as claimed: every recorded state is its predecessor plus whole firings. -/
theorem c9_spliced_times_decrease :
    tau_adaptive c9args c9d c9dn =
      some ([0, 3 / 100, 0, 1 / 100, 1 / 50, 3 / 100],
        [[1000], [300], [300], [299], [298], [297]], 1) ∧
    ([0, 3 / 100, 0, 1 / 100, 1 / 50, 3 / 100] : List ℚ).getD 2 0 <
      ([0, 3 / 100, 0, 1 / 100, 1 / 50, 3 / 100] : List ℚ).getD 1 0 := by decide!

/-- C10: two calls with identical argument records (stoichiometries, initial state,
rate constants, `nc`, `eps`, `max_t`, `max_iter`, volume, seed, chem flag) return
identical times, states and status: the embedding threads every random draw from the
seed alone — per the spec's reproducibility contract for the re-seeded numpy
generator — and the engine reads no other ambient state. -/
theorem c10_identical_inputs_identical_runs :
    ∀ a b : TAArgs, a = b → tau_adaptive_seeded a = tau_adaptive_seeded b := by
  intro a b h
  rw [h]

/-- Witness for `c10_identical_inputs_identical_runs`: the determinism theorem applied
at a concrete argument record. -/
theorem c10_identical_inputs_identical_runs_witness :
    tau_adaptive_seeded c10args = tau_adaptive_seeded c10args :=
  c10_identical_inputs_identical_runs c10args c10args rfl

end Pyssa
